import Mathlib

/-!
# Verification of the syncless WSGI server core (src/syncless/wsgi.py)

Shallow embedding of the parts of `syncless/wsgi.py` that the verified claims
are about: the WebSocket codec (`WebSocket.read_msg`, `WebSocket.write_msg`,
`GetWebSocketKey`), the request-header environment builder, the
Content-Length validation gate, the response-framing / keep-alive decisions of
`WsgiWorker`, and the `SslUpgrader` callback.

Byte strings are modelled as `List Nat` (each element a byte value 0..255),
Python dicts as association lists of strings. The buffered non-blocking
stream (`coio.nbfile`) is repository code that is not under `src/`; where its
behaviour matters it is modelled from the spec (see the doc comments marked
`Modelled from the spec:`).
-/

set_option autoImplicit false

/-- `MAX_WEBSOCKET_MESSAGE_SIZE = 10 << 20` (wsgi.py line 182). -/
def MAX_WEBSOCKET_MESSAGE_SIZE : Nat := 10 <<< 20

/-- Result of `WebSocket.read_msg` (wsgi.py lines 385-428): a returned byte
string, a `None` return, or one of the three reader exceptions. -/
inductive ReadResult where
  | msg : List Nat → ReadResult
  | nothing : ReadResult
  | truncated : ReadResult
  | tooLarge : ReadResult
  | invalidFrame : Nat → ReadResult
  deriving DecidableEq, Repr

/-- The continuation bit of a 0xFF-frame length byte: `i & 128` (line 404). -/
def contBit (i : Nat) : Bool := i &&& 128 != 0

/-- What `read_msg` does once the 7-bits-per-byte length of a 0xFF frame has
been decoded (lines 406-413): length 0 falls through to `return None`;
a length above `MAX_WEBSOCKET_MESSAGE_SIZE` raises
`WebSocketMessageTooLargeError`; otherwise `f.read(size)` returns the next
`size` bytes, or raises `WebSocketMessageTruncatedError` when the stream is
shorter. -/
def finishSize (size : Nat) (s : List Nat) : ReadResult :=
  if size = 0 then .nothing
  else if MAX_WEBSOCKET_MESSAGE_SIZE < size then .tooLarge
  else if s.length < size then .truncated
  else .msg (s.take size)

/-- The length-decoding loop of a 0xFF frame (lines 397-405):
`size = size * 128 + (i & 127)`, continue while `i & 128` is set, raise
`WebSocketMessageTruncatedError` when the stream ends mid-length. -/
def readSizeLoop : Nat → List Nat → ReadResult
  | _, [] => .truncated
  | size, i :: rest =>
    if contBit i then readSizeLoop (size * 128 + (i &&& 127)) rest
    else finishSize (size * 128 + (i &&& 127)) rest

/-- The 0x00-frame loop of `read_msg` (lines 414-425): look for the 0xFF
terminator in the read buffer, return the bytes before it; if the buffer has
grown to `MAX_WEBSOCKET_MESSAGE_SIZE` without a terminator raise
`WebSocketMessageTooLargeError`; if the stream ends first raise
`WebSocketMessageTruncatedError`.

Modelled from the spec: the buffered stream `coio.nbfile` (`find`,
`read_buffer_len`, `read_more`) is repository code not under `src/`; per
spec section 4.A it provides byte-level buffered reads, and `read_more(1)`
is modelled as making minimal progress, appending one byte of the remaining
stream to the read buffer per call, starting from an empty buffer. -/
def readDelimLoop : List Nat → List Nat → ReadResult
  | [], buffer =>
    if 255 ∈ buffer then .msg (buffer.takeWhile (fun x => x ≠ 255))
    else if MAX_WEBSOCKET_MESSAGE_SIZE ≤ buffer.length then .tooLarge
    else .truncated
  | b :: rest, buffer =>
    if 255 ∈ buffer then .msg (buffer.takeWhile (fun x => x ≠ 255))
    else if MAX_WEBSOCKET_MESSAGE_SIZE ≤ buffer.length then .tooLarge
    else readDelimLoop rest (buffer ++ [b])

/-- `WebSocket.read_msg` (wsgi.py lines 385-428) as a function of the bytes
remaining on the connection: `f.read(1)` returning nothing means end of
stream (`return None`); frame type 0xFF starts the length-prefixed branch,
frame type 0x00 the delimited branch, anything else raises
`WebSocketInvalidFrameTypeError`. -/
def read_msg : List Nat → ReadResult
  | [] => .nothing
  | b :: rest =>
    if b = 255 then readSizeLoop 0 rest
    else if b = 0 then readDelimLoop rest []
    else .invalidFrame b

/-- `WebSocket.write_msg` for a byte-string message (wsgi.py lines 440-443):
a payload containing 0xFF raises `ValueError`, otherwise the frame
`0x00 <msg> 0xFF` is written. -/
def write_msg (msg : List Nat) : Option (List Nat) :=
  if 255 ∈ msg then none else some (0 :: (msg ++ [255]))

/-- The value a complete 0xFF-frame length encoding decodes to
(the fold of `size = size * 128 + (i & 127)` starting from 0). -/
def lenVal (ds : List Nat) : Nat :=
  ds.foldl (fun a d => a * 128 + (d &&& 127)) 0

/-- `ds` is a complete length encoding: nonempty, every byte except the last
has the continuation bit set, and the last does not. -/
def isLenEnc : List Nat → Bool
  | [] => false
  | [d] => !contBit d
  | d :: ds => contBit d && isLenEnc ds

-- sanity checks on small inputs
example : read_msg [0, 72, 105, 255] = .msg [72, 105] := by decide
example : read_msg [255, 2, 72, 105] = .msg [72, 105] := by decide
example : read_msg [255, 0] = .nothing := by decide
example : read_msg [] = .nothing := by decide
example : read_msg [0, 255] = .msg [] := by decide
example : read_msg [7] = .invalidFrame 7 := by decide
example : read_msg [255, 129] = .truncated := by decide
example : read_msg [255, 3, 72] = .truncated := by decide
example : read_msg [0, 72] = .truncated := by decide
example : write_msg [72, 105] = some [0, 72, 105, 255] := by decide
example : write_msg [72, 255] = none := by decide
example : read_msg [255, 133, 128, 128, 1] = .tooLarge := by decide

/-! ## GetWebSocketKey (wsgi.py lines 355-365) -/

/-- The distinct ways `GetWebSocketKey` can raise. -/
inductive WsKeyError where
  /-- `int(NON_DIGITS_RE.sub('', value))` raises `ValueError` on `int('')`
  when the value contains no digit. -/
  | noDigits : WsKeyError
  /-- `number % spaces` raises `ZeroDivisionError` when the value contains
  no ASCII space. -/
  | zeroSpaces : WsKeyError
  /-- the explicit `raise ValueError` when `number % spaces != 0`. -/
  | notDivisible : WsKeyError
  /-- `struct.pack('>I', ...)` raises `struct.error` when `number / spaces`
  does not fit in an unsigned 32-bit standard-size field. -/
  | packOverflow : WsKeyError
  deriving DecidableEq, Repr

/-- The decimal value of a digit sequence, as computed by `int` on the
string of digits kept by `NON_DIGITS_RE.sub('', value)`. -/
def digitsVal (ds : List Char) : Nat :=
  ds.foldl (fun a c => a * 10 + (c.toNat - 48)) 0

/-- Big-endian 4-byte encoding, as produced by `struct.pack('>I', n)`. -/
def be32 (n : Nat) : List Nat :=
  [n / 2 ^ 24 % 256, n / 2 ^ 16 % 256, n / 2 ^ 8 % 256, n % 256]

/-- Outcome of `GetWebSocketKey`: a raised exception or the 4-byte key. -/
inductive WsKeyResult where
  | err : WsKeyError → WsKeyResult
  | key : List Nat → WsKeyResult
  deriving DecidableEq, Repr

/-- `GetWebSocketKey(value)` (wsgi.py lines 355-365): strip non-digits and
parse the rest as an integer, count ASCII spaces, fail unless the number is
divisible by the space count, and pack the quotient big-endian into 4 bytes.
The evaluation order of the source decides which error fires first:
`int` runs before `value.count(' ')` is used, the modulo runs before the
pack. -/
def GetWebSocketKey (value : String) : WsKeyResult :=
  let digits := value.toList.filter Char.isDigit
  if digits = [] then .err .noDigits
  else
    let number := digitsVal digits
    let spaces := value.toList.count ' '
    if spaces = 0 then .err .zeroSpaces
    else if number % spaces ≠ 0 then .err .notDivisible
    else if 2 ^ 32 ≤ number / spaces then .err .packOverflow
    else .key (be32 (number / spaces))

example : GetWebSocketKey "18 " = .key [0, 0, 0, 18] := by decide
example : GetWebSocketKey "3 5 " = .err .notDivisible := by decide
example : GetWebSocketKey "18" = .err .zeroSpaces := by decide

/-! ## The request-header environment loop (wsgi.py lines 570-599) -/

/-- `COMMA_SEPARATED_REQHEAD` (wsgi.py lines 152-157), in source order. -/
def COMMA_SEPARATED_REQHEAD : List String :=
  ["ACCEPT", "ACCEPT_CHARSET", "ACCEPT_ENCODING",
   "ACCEPT_LANGUAGE", "ACCEPT_RANGES", "ALLOW", "CACHE_CONTROL",
   "CONNECTION", "CONTENT_ENCODING", "CONTENT_LANGUAGE", "EXPECT",
   "IF_MATCH", "IF_NONE_MATCH", "PRAGMA", "PROXY_AUTHENTICATE", "TE",
   "TRAILER", "TRANSFER_ENCODING", "UPGRADE", "VARY", "VIA", "WARNING",
   "WWW_AUTHENTICATE"]

/-- ASCII-lowering of a code point, enough for Python `str.lower()` on the
header values at hand. -/
def lowerByte (n : Nat) : Nat := if 65 ≤ n ∧ n ≤ 90 then n + 32 else n

/-- `value.lower() == 'keep-alive'` (wsgi.py line 574), compared on code
points so the comparison is executable in the kernel. -/
def eqKeepAlive (v : String) : Bool :=
  v.toList.map (fun c => lowerByte c.toNat) = "keep-alive".toList.map Char.toNat

/-- `name_upper.startswith('PROXY_')` (wsgi.py line 587). -/
def isProxyName (n : String) : Bool :=
  "PROXY_".toList.isPrefixOf n.toList

/-- Lookup in a Python-dict model (association list, first binding wins;
`envSet` keeps keys unique so there is at most one). -/
def envGet : List (String × String) → String → Option String
  | [], _ => none
  | p :: rest, k => if p.1 = k then some p.2 else envGet rest k

/-- `env[key] = value` on the dict model: replace the existing binding in
place, or append a new one. -/
def envSet : List (String × String) → String → String → List (String × String)
  | [], k, v => [(k, v)]
  | p :: rest, k, v => if p.1 = k then (k, v) :: rest else p :: envSet rest k v

/-- The state the header loop of `WsgiWorker` threads through `req_lines`:
the WSGI environment entries it creates, and `do_req_keep_alive`.
(`content_length` parsing and its 400 responses are modelled separately by
`processContentLength`, claim C7; here the raw header value is stored as the
source does with `env['CONTENT_LENGTH'] = value`.) -/
structure HState where
  env : List (String × String)
  keep : Bool
  deriving DecidableEq, Repr

/-- One iteration of `for name_upper, value in req_lines` (wsgi.py lines
572-597). `name_upper` arrives canonicalized (upper-cased, dots and dashes
replaced by underscores) from `read_http_reqhead`. `CONNECTION` only updates
`do_req_keep_alive`; `KEEP_ALIVE` is ignored; `CONTENT_LENGTH` and
`CONTENT_TYPE` are stored without the `HTTP_` prefix; `PROXY_*` headers are
dropped; every other header goes to `HTTP_<NAME>`, joined with a comma and
space onto an existing value when the name is in
`COMMA_SEPARATED_REQHEAD`, overwritten otherwise. -/
def hstep (st : HState) (nv : String × String) : HState :=
  let n := nv.1
  let v := nv.2
  if n = "CONNECTION" then { st with keep := eqKeepAlive v }
  else if n = "KEEP_ALIVE" then st
  else if n = "CONTENT_LENGTH" then { st with env := envSet st.env "CONTENT_LENGTH" v }
  else if n = "CONTENT_TYPE" then { st with env := envSet st.env "CONTENT_TYPE" v }
  else if isProxyName n then st
  else
    let key := "HTTP_" ++ n
    match envGet st.env key with
    | some s =>
      if n ∈ COMMA_SEPARATED_REQHEAD then
        { st with env := envSet st.env key (s ++ ", " ++ v) }
      else
        { st with env := envSet st.env key v }
    | none => { st with env := envSet st.env key v }

/-- The whole header loop, starting from an environment with no header
entries and `do_req_keep_alive` as set from the HTTP version
(`http_version == 'HTTP/1.1'`, line 571). -/
def processReqLines (keep0 : Bool) (reqLines : List (String × String)) : HState :=
  reqLines.foldl hstep { env := [], keep := keep0 }

/-- Joining repeated header values with `", "` in arrival order. -/
def joinComma : List String → String
  | [] => ""
  | v :: vs => vs.foldl (fun a w => a ++ ", " ++ w) v

example :
    envGet (processReqLines true [("ACCEPT", "a"), ("HOST", "h"), ("ACCEPT", "b")]).env
      "HTTP_ACCEPT" = some "a, b" := by decide
example :
    envGet (processReqLines true [("X_A", "a"), ("X_A", "b")]).env "HTTP_X_A" = some "b" := by
  decide
example : (processReqLines true [("CONNECTION", "Keep-Alive")]).keep = true := by decide
example : (processReqLines false [("CONNECTION", "close")]).keep = false := by decide

/-! ## The Content-Length gate (wsgi.py lines 577-584 and 601-622) -/

/-- The request's `Content-Length` header as the worker sees it: absent,
present but not `int`-parsable, or an integer. -/
inductive ClHeader where
  | absent : ClHeader
  | malformed : ClHeader
  | value : Int → ClHeader
  deriving DecidableEq, Repr

/-- What the worker does about the request body before invoking the
application. -/
inductive ClOutcome where
  /-- `RespondWithBad(400, ..., reason)` followed by `return`: the
  connection is dropped and the application is never invoked. -/
  | bad400 : String → ClOutcome
  /-- the worker proceeds to call the application; the payload is the
  effective body length `wsgi.input` is limited to. -/
  | proceed : Option Int → ClOutcome
  deriving DecidableEq, Repr

/-- The Content-Length validation of `WsgiWorker` (wsgi.py lines 577-584 and
601-622): a non-integer value gets a 400 in the header loop itself; a
missing Content-Length on POST/PUT gets a 400; a nonzero Content-Length on
any other method gets a 400 (a zero one is dropped); when both
`Sec-WebSocket-Key` headers are present without a Content-Length, an 8-byte
body is assumed. -/
def processContentLength (method : String) (cl : ClHeader) (hasWsKeys : Bool) : ClOutcome :=
  match cl with
  | .malformed => .bad400 "bad content-length"
  | .absent =>
    if method = "POST" ∨ method = "PUT" then .bad400 "missing content"
    else if hasWsKeys then .proceed (some 8)
    else .proceed none
  | .value n =>
    if method = "POST" ∨ method = "PUT" then .proceed (some n)
    else if n ≠ 0 then .bad400 "unexpected content"
    else .proceed none

/-- Whether the worker goes on to call `wsgi_application` after the
Content-Length checks (each 400 branch does `return` first). -/
def appInvokedAfterClGate (method : String) (cl : ClHeader) (hasWsKeys : Bool) : Bool :=
  match processContentLength method cl hasWsKeys with
  | .bad400 _ => false
  | .proceed _ => true

example : processContentLength "POST" .absent false = .bad400 "missing content" := by decide
example : processContentLength "GET" (.value 3) false = .bad400 "unexpected content" := by decide
example : processContentLength "GET" (.value 0) false = .proceed none := by decide
example : processContentLength "GET" .absent true = .proceed (some 8) := by decide
example : processContentLength "PUT" (.value 3) false = .proceed (some 3) := by decide

/-! ## WsgiWorker response framing (wsgi.py lines 624-697 and 837-977) -/

/-- The keep-alive decision of the non-HEAD `write()` callback before
headers are sent (wsgi.py lines 663-664):
`bool(do_req_keep_alive and res_content_length_ary)`. -/
def writeNotHeadKeep (doReqKeepAlive : Bool) (declared : Option Nat) : Bool :=
  doReqKeepAlive && declared.isSome

/-- The keep-alive decision of the HEAD `write()` callback and of the HEAD
response branch (wsgi.py lines 635 and 957):
`do_keep_alive_ary[0] = do_req_keep_alive`. -/
def writeHeadKeep (doReqKeepAlive : Bool) : Bool := doReqKeepAlive

/-- Outcome of one request cycle through the buffered-body branch of
`WsgiWorker` (the application returned a str/list/tuple). -/
structure BufResult where
  /-- the `Connection:` header sent: `true` = `Keep-Alive`, `false` = `close`
  (either via `KEEP_ALIVE_RESPONSES` or hard-coded inside `RespondWithBad`). -/
  headerKeep : Bool
  /-- `do_keep_alive_ary[0]` when the cycle ends: the worker loops for a
  further request on the same socket iff this is true. -/
  reuse : Bool
  /-- the cycle ended through `RespondWithBad(500, ...)`. -/
  resp500 : Bool
  deriving DecidableEq, Repr

/-- The buffered-body branch of `WsgiWorker` with headers still unsent
(wsgi.py lines 843-888, else-branch at 869): for non-HEAD the body is the
joined items, for HEAD it is empty; `do_keep_alive = do_req_keep_alive`
(line 872); when a Content-Length was declared and the body length differs,
the buffered headers are discarded, `RespondWithBad(500, ...)` emits a
response with `Connection: close`, and the worker does `continue` — with
`do_keep_alive` left as just assigned (lines 873-881); otherwise the
`Connection:` header from `KEEP_ALIVE_RESPONSES[do_keep_alive]` and the body
are written (a server-computed `Content-Length` first when none was
declared, lines 882-884). -/
def bufferedPath (doReqKeepAlive : Bool) (isNotHead : Bool) (declared : Option Nat)
    (bodyLen : Nat) : BufResult :=
  let dataLen := if isNotHead then bodyLen else 0
  let keep := doReqKeepAlive
  match declared with
  | some n =>
    if dataLen ≠ n then { headerKeep := false, reuse := keep, resp500 := true }
    else { headerKeep := keep, reuse := keep, resp500 := false }
  | none => { headerKeep := keep, reuse := keep, resp500 := false }

/-- Outcome of one request cycle through the lazy-iterator branch of
`WsgiWorker`. -/
structure LazyResult where
  /-- the `Connection:` header emitted at line 893:
  `bool(do_req_keep_alive and res_content_length_ary)`. -/
  headerKeep : Bool
  /-- all response body bytes written to the socket after the blank line. -/
  body : List Nat
  /-- `do_keep_alive_ary[0]` when the cycle ends (`false` when the cycle
  ends in `return`). -/
  reuse : Bool
  /-- a `ConsumerWorker` tasklet was spawned for this response. -/
  consumerSpawned : Bool
  /-- how many times `items.close()` runs for this response: the worker's
  own `finally` block (lines 989-997, `items` is still bound on every
  sub-path of this branch) plus the spawned `ConsumerWorker`'s `finally`
  (lines 316-324). -/
  closeCount : Nat
  deriving DecidableEq, Repr

/-- `for data in items: if data: break` (wsgi.py lines 903-905 / 914-916):
the first non-empty chunk (or an empty chunk if none is) together with the
chunks the iterator has not yet yielded. -/
def scanFirst : List (List Nat) → List Nat × List (List Nat)
  | [] => ([], [])
  | c :: cs => if c = [] then scanFirst cs else (c, cs)

/-- The streaming loop over the remaining items when a Content-Length was
declared (wsgi.py lines 932-941): each chunk is written in full, the
remaining count is decremented, and when it goes negative
`data[:res_content_length_ary[1]]` — the first `remaining` bytes of the
chunk — is written again before the loop breaks. Returns the bytes written
by the loop and the final remaining count. -/
def streamLoop : Int → List (List Nat) → List Nat × Int
  | rem, [] => ([], rem)
  | rem, d :: ds =>
    let rem1 := rem - d.length
    if rem1 < 0 then (d ++ d.take rem.toNat, rem1)
    else
      let (w, r) := streamLoop rem1 ds
      (d ++ w, r)

/-- One request cycle through the non-HEAD lazy-iterator branch of
`WsgiWorker` with headers still unsent (wsgi.py lines 889-954 and the
closing lines 989-1014): after the `Connection:` header (lines 890-894),
when a nonzero Content-Length was declared the worker waits for the first
non-empty chunk; if that chunk alone overshoots, its first `remaining`
bytes are written and the worker does `continue` (lines 903-912); otherwise
the chunk is written and the remaining items are streamed by `streamLoop`;
a positive remaining count afterwards spawns a `ConsumerWorker` on the
iterator — without clearing `items` — and returns (lines 942-946); with no
declared Content-Length everything is written and the keep-alive decision
`do_req_keep_alive and res_content_length_ary` is false. -/
def lazyPath (doReqKeepAlive : Bool) (declared : Option Nat)
    (chunks : List (List Nat)) : LazyResult :=
  let keep := doReqKeepAlive && declared.isSome
  match declared with
  | none =>
    { headerKeep := keep, body := chunks.flatten, reuse := keep,
      consumerSpawned := false, closeCount := 1 }
  | some n =>
    if n ≠ 0 then
      let (first, rest) := scanFirst chunks
      let rem1 : Int := (n : Int) - first.length
      if rem1 < 0 then
        -- lines 907-912: `data[:res_content_length_ary[1]]`, then `continue`
        { headerKeep := keep, body := first.take n, reuse := keep,
          consumerSpawned := false, closeCount := 1 }
      else
        let (w, remF) := streamLoop rem1 rest
        if 0 < remF then
          -- lines 942-946: spawn ConsumerWorker(items), return
          { headerKeep := keep, body := first ++ w, reuse := false,
            consumerSpawned := true, closeCount := 2 }
        else
          { headerKeep := keep, body := first ++ w, reuse := keep,
            consumerSpawned := false, closeCount := 1 }
    else
      let (w, remF) := streamLoop 0 chunks
      if 0 < remF then
        { headerKeep := keep, body := w, reuse := false,
          consumerSpawned := true, closeCount := 2 }
      else
        { headerKeep := keep, body := w, reuse := keep,
          consumerSpawned := false, closeCount := 1 }

example :
    (lazyPath true (some 5) [[97, 98], [99, 100, 101, 102, 103, 104]]).body =
      [97, 98, 99, 100, 101, 102, 103, 104, 99, 100, 101] := by decide
example : (lazyPath true (some 10) [[97, 98]]).closeCount = 2 := by decide
example : (lazyPath true none [[97], [], [98]]).body = [97, 98] := by decide
example : (lazyPath true none []).reuse = false := by decide

/-! ## SslUpgrader (wsgi.py lines 1099-1138) and its caller (lines 472-477) -/

/-- The accepted socket as the worker sees it after the upgrade callback. -/
inductive SockState where
  | plain : SockState
  | ssl : SockState
  deriving DecidableEq, Repr

/-- Result of `sock.recv(1, socket.MSG_PEEK)`: an I/O error, or the peeked
bytes (empty on end of stream). -/
inductive PeekResult where
  | ioError : PeekResult
  | bytes : List Nat → PeekResult
  deriving DecidableEq, Repr

/-- The wrap-and-handshake tail of `SslUpgrader.__call__` (wsgi.py lines
1129-1138): on handshake failure return `None` with the environment
untouched; on success set `wsgi.url_scheme` and `HTTPS` and return the
wrapped socket. -/
def sslWrapStep (handshakeOk : Bool) (env : List (String × String)) :
    Option SockState × List (String × String) :=
  if handshakeOk then
    (some .ssl, envSet (envSet env "wsgi.url_scheme" "https") "HTTPS" "on")
  else (none, env)

/-- `SslUpgrader.__call__(sock, env, is_debug)` (wsgi.py lines 1119-1138):
with `use_http` set, peek one byte; a peek error returns `None`; a peeked
byte other than 0x80 and 0x16 returns the socket unchanged; otherwise (and
always when `use_http` is unset) do the SSL handshake via `sslWrapStep`. -/
def sslUpgraderCall (useHttp : Bool) (peek : PeekResult) (handshakeOk : Bool)
    (env : List (String × String)) : Option SockState × List (String × String) :=
  if useHttp then
    match peek with
    | .ioError => (none, env)
    | .bytes b =>
      if b = [128] ∨ b = [22] then sslWrapStep handshakeOk env
      else (some .plain, env)
  else sslWrapStep handshakeOk env

/-- The caller in `WsgiWorker` (wsgi.py lines 472-477): when the upgrade
callback returns `None` the worker returns at once — before `sockfile` even
exists, so nothing is ever written to the connection. -/
def workerProceedsAfterUpgrade (useHttp : Bool) (peek : PeekResult)
    (handshakeOk : Bool) (env : List (String × String)) : Bool :=
  (sslUpgraderCall useHttp peek handshakeOk env).1.isSome

example : sslUpgraderCall true (.bytes [71]) true [] = (some .plain, []) := by decide
example :
    sslUpgraderCall true (.bytes [22]) true [("HTTPS", "off")] =
      (some .ssl, [("HTTPS", "on"), ("wsgi.url_scheme", "https")]) := by decide
example : workerProceedsAfterUpgrade true (.bytes [22]) false [] = false := by decide

/-! ## Lemmas about the WebSocket codec -/

theorem readDelimLoop_nil (buf : List Nat) :
    readDelimLoop [] buf =
      if 255 ∈ buf then .msg (buf.takeWhile (fun x => x ≠ 255))
      else if MAX_WEBSOCKET_MESSAGE_SIZE ≤ buf.length then .tooLarge
      else .truncated := rfl

theorem readDelimLoop_cons (b : Nat) (rest buf : List Nat) :
    readDelimLoop (b :: rest) buf =
      if 255 ∈ buf then .msg (buf.takeWhile (fun x => x ≠ 255))
      else if MAX_WEBSOCKET_MESSAGE_SIZE ≤ buf.length then .tooLarge
      else readDelimLoop rest (buf ++ [b]) := rfl

theorem takeWhile_append_stop (buf t : List Nat) (h : (255 : Nat) ∉ buf) :
    (buf ++ 255 :: t).takeWhile (fun x => x ≠ 255) = buf := by
  induction buf with
  | nil => simp
  | cons a bs ih =>
    simp only [List.mem_cons, not_or] at h
    have h1 : a ≠ 255 := fun e => h.1 e.symm
    rw [List.cons_append, List.takeWhile_cons, if_pos (by simp [h1]), ih h.2]

/-- Once the terminator byte is in the buffer the loop returns at the next
`find`, whatever is left on the stream. -/
theorem readDelimLoop_found_buf (s buf : List Nat) (h : (255 : Nat) ∈ buf) :
    readDelimLoop s buf = .msg (buf.takeWhile (fun x => x ≠ 255)) := by
  cases s
  · rw [readDelimLoop_nil, if_pos h]
  · rw [readDelimLoop_cons, if_pos h]

/-- The 0x00-frame loop on a stream whose first 0xFF terminator comes after
`m`: too-large exactly when the buffer reaches the limit before the
terminator is buffered, the bytes before the terminator otherwise. -/
theorem readDelimLoop_found (m tail : List Nat) : ∀ buf : List Nat, (255 : Nat) ∉ buf →
    (255 : Nat) ∉ m →
    readDelimLoop (m ++ 255 :: tail) buf =
      (if MAX_WEBSOCKET_MESSAGE_SIZE ≤ buf.length + m.length then .tooLarge
       else .msg (buf ++ m)) := by
  induction m with
  | nil =>
    intro buf hb _
    rw [List.nil_append, readDelimLoop_cons, if_neg hb]
    by_cases hM : MAX_WEBSOCKET_MESSAGE_SIZE ≤ buf.length
    · rw [if_pos hM, List.length_nil, if_pos (by omega)]
    · rw [if_neg hM, List.length_nil, if_neg (by omega)]
      have hmem : (255 : Nat) ∈ buf ++ [255] := by simp
      rw [readDelimLoop_found_buf tail (buf ++ [255]) hmem]
      have : buf ++ [255] = buf ++ 255 :: ([] : List Nat) := rfl
      rw [this, takeWhile_append_stop buf [] hb]
      simp
  | cons b bs ih =>
    intro buf hb hm
    simp only [List.mem_cons, not_or] at hm
    have hb' : (255 : Nat) ∉ buf ++ [b] := by
      simp only [List.mem_append, List.mem_singleton, not_or]
      exact ⟨hb, hm.1⟩
    rw [List.cons_append, readDelimLoop_cons, if_neg hb]
    by_cases hM : MAX_WEBSOCKET_MESSAGE_SIZE ≤ buf.length
    · rw [if_pos hM, List.length_cons, if_pos (by omega)]
    · rw [if_neg hM, ih (buf ++ [b]) hb' hm.2]
      have e1 : (buf ++ [b]).length + bs.length = buf.length + (b :: bs).length := by
        simp only [List.length_append, List.length_cons, List.length_nil]
        omega
      have e2 : buf ++ [b] ++ bs = buf ++ b :: bs := by simp
      rw [e1, e2]

/-- The 0x00-frame loop on a stream with no 0xFF terminator at all:
too-large when the limit is reachable, truncated otherwise. -/
theorem readDelimLoop_no_term (s : List Nat) : ∀ buf : List Nat, (255 : Nat) ∉ buf →
    (255 : Nat) ∉ s →
    readDelimLoop s buf =
      (if MAX_WEBSOCKET_MESSAGE_SIZE ≤ buf.length + s.length then .tooLarge
       else .truncated) := by
  induction s with
  | nil =>
    intro buf hb _
    rw [readDelimLoop_nil, if_neg hb, List.length_nil, Nat.add_zero]
  | cons b bs ih =>
    intro buf hb hm
    simp only [List.mem_cons, not_or] at hm
    have hb' : (255 : Nat) ∉ buf ++ [b] := by
      simp only [List.mem_append, List.mem_singleton, not_or]
      exact ⟨hb, hm.1⟩
    rw [readDelimLoop_cons, if_neg hb]
    by_cases hM : MAX_WEBSOCKET_MESSAGE_SIZE ≤ buf.length
    · rw [if_pos hM, List.length_cons, if_pos (by omega)]
    · rw [if_neg hM, ih (buf ++ [b]) hb' hm.2]
      have e1 : (buf ++ [b]).length + bs.length = buf.length + (b :: bs).length := by
        simp only [List.length_append, List.length_cons, List.length_nil]
        omega
      rw [e1]

/-- Running the length loop over a complete encoding followed by the
payload: the loop consumes exactly the encoding and hands the decoded value
to `finishSize`. -/
theorem readSizeLoop_append (ds : List Nat) : ∀ (acc : Nat) (rest : List Nat),
    isLenEnc ds = true →
    readSizeLoop acc (ds ++ rest) =
      finishSize (ds.foldl (fun a d => a * 128 + (d &&& 127)) acc) rest := by
  induction ds with
  | nil => intro acc rest h; simp [isLenEnc] at h
  | cons d ds ih =>
    intro acc rest h
    cases ds with
    | nil =>
      have hc : contBit d = false := by
        simpa [isLenEnc] using h
      simp [readSizeLoop, hc]
    | cons d2 ds2 =>
      have h2 : contBit d = true ∧ isLenEnc (d2 :: ds2) = true := by
        simpa [isLenEnc] using h
      simp only [List.cons_append, readSizeLoop, h2.1, if_true, List.foldl_cons]
      exact ih _ rest h2.2

theorem finishSize_eq_nothing (size : Nat) (s : List Nat) :
    finishSize size s = .nothing ↔ size = 0 := by
  unfold finishSize
  by_cases h0 : size = 0
  · simp [h0]
  · rw [if_neg h0]
    by_cases h1 : MAX_WEBSOCKET_MESSAGE_SIZE < size
    · simp [h1, h0]
    · rw [if_neg h1]
      by_cases h2 : s.length < size
      · simp [h2, h0]
      · simp [h2, h0]

theorem readSizeLoop_eq_nothing (s : List Nat) : ∀ acc : Nat,
    (readSizeLoop acc s = .nothing ↔
      ∃ ds rest, s = ds ++ rest ∧ isLenEnc ds = true ∧
        ds.foldl (fun a d => a * 128 + (d &&& 127)) acc = 0) := by
  induction s with
  | nil =>
    intro acc
    simp only [readSizeLoop]
    constructor
    · intro h; cases h
    · rintro ⟨ds, rest, heq, henc, -⟩
      rcases List.append_eq_nil.mp heq.symm with ⟨h1, -⟩
      rw [h1] at henc
      simp [isLenEnc] at henc
  | cons i t ih =>
    intro acc
    by_cases hc : contBit i = true
    · rw [show readSizeLoop acc (i :: t) =
          readSizeLoop (acc * 128 + (i &&& 127)) t by simp [readSizeLoop, hc]]
      rw [ih (acc * 128 + (i &&& 127))]
      constructor
      · rintro ⟨ds, rest, hteq, henc, hfold⟩
        cases ds with
        | nil => simp [isLenEnc] at henc
        | cons d2 ds2 =>
          refine ⟨i :: d2 :: ds2, rest, by simp [hteq], ?_, ?_⟩
          · simp [isLenEnc, hc, henc]
          · simpa using hfold
      · rintro ⟨ds, rest, heq, henc, hfold⟩
        cases ds with
        | nil => simp [isLenEnc] at henc
        | cons d ds' =>
          have hd : d = i := by
            have := congrArg (fun l => List.head? l) heq
            simpa using this.symm
          have ht : t = ds' ++ rest := by
            have := congrArg List.tail heq
            simpa using this
          subst hd
          cases ds' with
          | nil =>
            have : isLenEnc [d] = !contBit d := rfl
            rw [this, hc] at henc
            simp at henc
          | cons d2 ds2 =>
            have henc' : isLenEnc (d2 :: ds2) = true := by
              have : isLenEnc (d :: d2 :: ds2) = (contBit d && isLenEnc (d2 :: ds2)) := rfl
              rw [this, hc] at henc
              simpa using henc
            exact ⟨d2 :: ds2, rest, ht, henc', by simpa using hfold⟩
    · have hc' : contBit i = false := by simpa using hc
      rw [show readSizeLoop acc (i :: t) =
          finishSize (acc * 128 + (i &&& 127)) t by simp [readSizeLoop, hc']]
      rw [finishSize_eq_nothing]
      constructor
      · intro h0
        exact ⟨[i], t, rfl, by simp [isLenEnc, hc'], by simpa using h0⟩
      · rintro ⟨ds, rest, heq, henc, hfold⟩
        cases ds with
        | nil => simp [isLenEnc] at henc
        | cons d ds' =>
          have hd : d = i := by
            have := congrArg (fun l => List.head? l) heq
            simpa using this.symm
          subst hd
          cases ds' with
          | nil => simpa using hfold
          | cons d2 ds2 =>
            have : isLenEnc (d :: d2 :: ds2) = (contBit d && isLenEnc (d2 :: ds2)) := rfl
            rw [this, hc'] at henc
            simp at henc

theorem readDelimLoop_ne_nothing (s : List Nat) : ∀ buf : List Nat,
    readDelimLoop s buf ≠ .nothing := by
  induction s with
  | nil =>
    intro buf
    rw [readDelimLoop_nil]
    by_cases h1 : (255 : Nat) ∈ buf
    · simp [h1]
    · by_cases h2 : MAX_WEBSOCKET_MESSAGE_SIZE ≤ buf.length <;> simp [h1, h2]
  | cons b bs ih =>
    intro buf
    rw [readDelimLoop_cons]
    by_cases h1 : (255 : Nat) ∈ buf
    · simp [h1]
    · by_cases h2 : MAX_WEBSOCKET_MESSAGE_SIZE ≤ buf.length
      · simp [h1, h2]
      · rw [if_neg h1, if_neg h2]
        exact ih (buf ++ [b])

theorem read_msg_cons (b : Nat) (rest : List Nat) :
    read_msg (b :: rest) =
      if b = 255 then readSizeLoop 0 rest
      else if b = 0 then readDelimLoop rest []
      else .invalidFrame b := rfl

/-- A stream of length bytes that all carry the continuation bit never
completes the length, so the loop runs off the end of the input. -/
theorem readSizeLoop_all_cont (ds : List Nat) : ∀ acc : Nat,
    (∀ d ∈ ds, contBit d = true) → readSizeLoop acc ds = .truncated := by
  induction ds with
  | nil => intro acc _; rfl
  | cons d ds ih =>
    intro acc h
    have hd : contBit d = true := h d (by simp)
    simp only [readSizeLoop, hd, if_true]
    exact ih _ (fun x hx => h x (by simp [hx]))

/-! ## Lemmas about the environment model -/

theorem envGet_envSet_self (e : List (String × String)) (k v : String) :
    envGet (envSet e k v) k = some v := by
  induction e with
  | nil => simp [envSet, envGet]
  | cons p rest ih =>
    by_cases h : p.1 = k
    · simp [envSet, h, envGet]
    · simp [envSet, h, envGet, ih]

theorem envGet_envSet_of_ne (e : List (String × String)) (k k' v : String) (h : k' ≠ k) :
    envGet (envSet e k v) k' = envGet e k' := by
  have hk : ¬k = k' := fun e2 => h e2.symm
  induction e with
  | nil => simp [envSet, envGet, hk]
  | cons p rest ih =>
    by_cases hp : p.1 = k
    · simp [envSet, hp, envGet, hk]
    · simp [envSet, hp, envGet, ih]

theorem foldl_keep_last (vs : List String) : ∀ v0 : String,
    vs.foldl (fun _ w => w) v0 = vs.getLastD v0 := by
  induction vs with
  | nil => intro v0; rfl
  | cons v vs ih =>
    intro v0
    rw [List.foldl_cons, ih v]
    cases vs <;> rfl

/-- On a header name that is none of the specially handled ones, `hstep`
takes the generic `HTTP_<NAME>` branch. -/
theorem hstep_generic (st : HState) (n v : String)
    (h1 : n ≠ "CONNECTION") (h2 : n ≠ "KEEP_ALIVE") (h3 : n ≠ "CONTENT_LENGTH")
    (h4 : n ≠ "CONTENT_TYPE") (h5 : isProxyName n = false) :
    hstep st (n, v) =
      match envGet st.env ("HTTP_" ++ n) with
      | some s =>
        if n ∈ COMMA_SEPARATED_REQHEAD then
          { st with env := envSet st.env ("HTTP_" ++ n) (s ++ ", " ++ v) }
        else { st with env := envSet st.env ("HTTP_" ++ n) v }
      | none => { st with env := envSet st.env ("HTTP_" ++ n) v } := by
  unfold hstep
  rw [if_neg h1, if_neg h2, if_neg h3, if_neg h4, if_neg (by simp [h5])]

/-- Folding further repetitions of a comma-folded header onto an
environment that already holds a value for it appends `", " ++ value`
each time. -/
theorem foldl_hstep_comma (n : String)
    (h1 : n ≠ "CONNECTION") (h2 : n ≠ "KEEP_ALIVE") (h3 : n ≠ "CONTENT_LENGTH")
    (h4 : n ≠ "CONTENT_TYPE") (h5 : isProxyName n = false)
    (hin : n ∈ COMMA_SEPARATED_REQHEAD) (vs : List String) : ∀ (st : HState) (s : String),
    envGet st.env ("HTTP_" ++ n) = some s →
    envGet ((vs.map (fun v => (n, v))).foldl hstep st).env ("HTTP_" ++ n) =
      some (vs.foldl (fun a w => a ++ ", " ++ w) s) := by
  induction vs with
  | nil => intro st s h; simpa using h
  | cons v vs ih =>
    intro st s h
    simp only [List.map_cons, List.foldl_cons]
    rw [hstep_generic st n v h1 h2 h3 h4 h5, h]
    simp only [if_pos hin]
    exact ih _ _ (envGet_envSet_self st.env ("HTTP_" ++ n) (s ++ ", " ++ v))

/-- Folding further repetitions of a non-comma-folded header overwrites the
stored value each time (the last repetition wins). -/
theorem foldl_hstep_overwrite (n : String)
    (h1 : n ≠ "CONNECTION") (h2 : n ≠ "KEEP_ALIVE") (h3 : n ≠ "CONTENT_LENGTH")
    (h4 : n ≠ "CONTENT_TYPE") (h5 : isProxyName n = false)
    (hout : n ∉ COMMA_SEPARATED_REQHEAD) (vs : List String) : ∀ (st : HState) (s : String),
    envGet st.env ("HTTP_" ++ n) = some s →
    envGet ((vs.map (fun v => (n, v))).foldl hstep st).env ("HTTP_" ++ n) =
      some (vs.foldl (fun _ w => w) s) := by
  induction vs with
  | nil => intro st s h; simpa using h
  | cons v vs ih =>
    intro st s h
    simp only [List.map_cons, List.foldl_cons]
    rw [hstep_generic st n v h1 h2 h3 h4 h5, h]
    simp only [if_neg hout]
    exact ih _ _ (envGet_envSet_self st.env ("HTTP_" ++ n) v)

/-! ## Claim theorems -/

/-- C4 (counterexample): the claim says `GetWebSocketKey` fails only when
the value has no ASCII space or the number is not divisible by the space
count, and otherwise returns the 4-byte big-endian quotient. The value `" "`
has one space (and the empty digit string, whose big integer would be 0,
is divisible by 1), yet the function raises `ValueError` from `int('')`;
the value `"42949672960 "` has one space and its number 42949672960 is
divisible by 1, yet `struct.pack('>I', 42949672960)` raises, so no 4-byte
key is returned in either case. -/
theorem c4_counterexample :
    " ".toList.count ' ' = 1 ∧
    GetWebSocketKey " " = .err .noDigits ∧
    "42949672960 ".toList.count ' ' = 1 ∧
    digitsVal ("42949672960 ".toList.filter Char.isDigit) = 42949672960 ∧
    42949672960 % 1 = 0 ∧
    GetWebSocketKey "42949672960 " = .err .packOverflow := by decide

/-- C4 (amended): `GetWebSocketKey` fails when the value contains no digit
(`int('')`), when it contains no ASCII space (`ZeroDivisionError`), when the
number formed from its digits is not divisible by the space count
(`ValueError`), or when the quotient does not fit in 32 bits
(`struct.error`); in every remaining case it returns the 4-byte big-endian
encoding of the number divided by the space count. -/
theorem c4_get_web_socket_key (value : String) :
    (value.toList.filter Char.isDigit = [] → GetWebSocketKey value = .err .noDigits) ∧
    (value.toList.filter Char.isDigit ≠ [] → value.toList.count ' ' = 0 →
      GetWebSocketKey value = .err .zeroSpaces) ∧
    (value.toList.filter Char.isDigit ≠ [] → value.toList.count ' ' ≠ 0 →
      digitsVal (value.toList.filter Char.isDigit) % value.toList.count ' ' ≠ 0 →
      GetWebSocketKey value = .err .notDivisible) ∧
    (value.toList.filter Char.isDigit ≠ [] → value.toList.count ' ' ≠ 0 →
      digitsVal (value.toList.filter Char.isDigit) % value.toList.count ' ' = 0 →
      2 ^ 32 ≤ digitsVal (value.toList.filter Char.isDigit) / value.toList.count ' ' →
      GetWebSocketKey value = .err .packOverflow) ∧
    (value.toList.filter Char.isDigit ≠ [] → value.toList.count ' ' ≠ 0 →
      digitsVal (value.toList.filter Char.isDigit) % value.toList.count ' ' = 0 →
      digitsVal (value.toList.filter Char.isDigit) / value.toList.count ' ' < 2 ^ 32 →
      GetWebSocketKey value =
        .key (be32 (digitsVal (value.toList.filter Char.isDigit) /
          value.toList.count ' '))) := by
  refine ⟨fun h => ?_, fun h1 h2 => ?_, fun h1 h2 h3 => ?_,
    fun h1 h2 h3 h4 => ?_, fun h1 h2 h3 h4 => ?_⟩ <;>
    simp only [GetWebSocketKey]
  · rw [if_pos h]
  · rw [if_neg h1, if_pos h2]
  · rw [if_neg h1, if_neg h2, if_pos h3]
  · rw [if_neg h1, if_neg h2, if_neg (by simp only [ne_eq, not_not]; exact h3), if_pos h4]
  · rw [if_neg h1, if_neg h2, if_neg (by simp only [ne_eq, not_not]; exact h3),
      if_neg (Nat.not_le.mpr h4)]

/-- C4 (witness): the amended theorem applied to the draft-76-style value
`"18 "`: two digits forming 18, one space, divisible, quotient below
`2^32`, so the key is the big-endian encoding of 18. -/
theorem c4_witness :
    GetWebSocketKey "18 " =
      .key (be32 (digitsVal ("18 ".toList.filter Char.isDigit) /
        "18 ".toList.count ' ')) :=
  (c4_get_web_socket_key "18 ").2.2.2.2 (by decide) (by decide) (by decide) (by decide)

/-- C5 (counterexample): the claim allows `len(m) ≤ MAX_WEBSOCKET_MESSAGE_SIZE`,
but a message of exactly `MAX_WEBSOCKET_MESSAGE_SIZE` 0xFF-free bytes is
framed by `write_msg` and then rejected by `read_msg`: the read buffer
reaches `MAX_WEBSOCKET_MESSAGE_SIZE` bytes while the terminator is still
unread, so the reader raises `WebSocketMessageTooLargeError` instead of
returning the message. -/
theorem c5_counterexample :
    (List.replicate MAX_WEBSOCKET_MESSAGE_SIZE 65).length ≤ MAX_WEBSOCKET_MESSAGE_SIZE ∧
    (255 : Nat) ∉ List.replicate MAX_WEBSOCKET_MESSAGE_SIZE 65 ∧
    write_msg (List.replicate MAX_WEBSOCKET_MESSAGE_SIZE 65) =
      some (0 :: (List.replicate MAX_WEBSOCKET_MESSAGE_SIZE 65 ++ [255])) ∧
    read_msg (0 :: (List.replicate MAX_WEBSOCKET_MESSAGE_SIZE 65 ++ [255])) = .tooLarge := by
  have hmem : (255 : Nat) ∉ List.replicate MAX_WEBSOCKET_MESSAGE_SIZE 65 := by
    rw [List.mem_replicate]
    exact fun h => absurd h.2 (by decide)
  refine ⟨by rw [List.length_replicate], hmem, ?_, ?_⟩
  · unfold write_msg
    rw [if_neg hmem]
  · rw [read_msg_cons, if_neg (by decide), if_pos rfl]
    have e : List.replicate MAX_WEBSOCKET_MESSAGE_SIZE 65 ++ [255] =
        List.replicate MAX_WEBSOCKET_MESSAGE_SIZE 65 ++ 255 :: ([] : List Nat) := rfl
    rw [e, readDelimLoop_found (List.replicate MAX_WEBSOCKET_MESSAGE_SIZE 65) [] []
      (List.not_mem_nil 255) hmem]
    rw [if_pos (by rw [List.length_nil, Nat.zero_add, List.length_replicate])]

/-- C5 (amended): for every byte string `m` of fewer than
`MAX_WEBSOCKET_MESSAGE_SIZE` bytes containing no 0xFF byte, framing `m` with
`write_msg` and reading the produced bytes back with `read_msg` yields `m`
again. -/
theorem c5_round_trip (m : List Nat) (hff : (255 : Nat) ∉ m)
    (hlen : m.length < MAX_WEBSOCKET_MESSAGE_SIZE) :
    write_msg m = some (0 :: (m ++ [255])) ∧
    read_msg (0 :: (m ++ [255])) = .msg m := by
  constructor
  · unfold write_msg
    rw [if_neg hff]
  · rw [read_msg_cons, if_neg (by decide), if_pos rfl]
    have e : m ++ [255] = m ++ 255 :: ([] : List Nat) := rfl
    rw [e, readDelimLoop_found m [] [] (List.not_mem_nil 255) hff]
    rw [if_neg (by rw [List.length_nil, Nat.zero_add]; exact Nat.not_le.mpr hlen),
      List.nil_append]

/-- C5 (witness): the amended round trip at the concrete two-byte message
`[72, 105]`. -/
theorem c5_round_trip_witness :
    write_msg [72, 105] = some (0 :: ([72, 105] ++ [255])) ∧
    read_msg (0 :: ([72, 105] ++ [255])) = .msg [72, 105] :=
  c5_round_trip [72, 105] (by decide) (by decide)

/-- C6 (confirmed): the error cases of `WebSocket.read_msg`. A first frame
byte other than 0x00 and 0xFF raises the invalid-frame-type error; a 0xFF
frame whose 7-bits-per-byte decoded length exceeds
`MAX_WEBSOCKET_MESSAGE_SIZE` raises the too-large error; input ending before
the declared length is read, before the length encoding completes, or
before the 0xFF terminator of a 0x00 frame, raises the truncated error; and
a 0x00 frame whose buffer reaches `MAX_WEBSOCKET_MESSAGE_SIZE` bytes before
the terminator (with or without a terminator later in the input) raises the
too-large error. -/
theorem c6_read_msg_errors :
    (∀ (b : Nat) (rest : List Nat), b ≠ 0 → b ≠ 255 →
      read_msg (b :: rest) = .invalidFrame b) ∧
    (∀ (ds payload : List Nat), isLenEnc ds = true →
      MAX_WEBSOCKET_MESSAGE_SIZE < lenVal ds →
      read_msg (255 :: (ds ++ payload)) = .tooLarge) ∧
    (∀ (ds payload : List Nat), isLenEnc ds = true → 0 < lenVal ds →
      lenVal ds ≤ MAX_WEBSOCKET_MESSAGE_SIZE → payload.length < lenVal ds →
      read_msg (255 :: (ds ++ payload)) = .truncated) ∧
    (∀ ds : List Nat, (∀ d ∈ ds, contBit d = true) →
      read_msg (255 :: ds) = .truncated) ∧
    (∀ s : List Nat, (255 : Nat) ∉ s → s.length < MAX_WEBSOCKET_MESSAGE_SIZE →
      read_msg (0 :: s) = .truncated) ∧
    (∀ s : List Nat, (255 : Nat) ∉ s → MAX_WEBSOCKET_MESSAGE_SIZE ≤ s.length →
      read_msg (0 :: s) = .tooLarge) ∧
    (∀ (m tail : List Nat), (255 : Nat) ∉ m → MAX_WEBSOCKET_MESSAGE_SIZE ≤ m.length →
      read_msg (0 :: (m ++ 255 :: tail)) = .tooLarge) := by
  refine ⟨?_, ?_, ?_, ?_, ?_, ?_, ?_⟩
  · intro b rest h0 h255
    rw [read_msg_cons, if_neg h255, if_neg h0]
  · intro ds payload henc hbig
    rw [read_msg_cons, if_pos rfl, readSizeLoop_append ds 0 payload henc]
    unfold finishSize
    rw [if_neg (by have := hbig; unfold lenVal at this; omega), if_pos (by
      have := hbig; unfold lenVal at this; exact this)]
  · intro ds payload henc hpos hle hshort
    rw [read_msg_cons, if_pos rfl, readSizeLoop_append ds 0 payload henc]
    unfold finishSize
    unfold lenVal at hpos hle hshort
    rw [if_neg (by omega), if_neg (by omega), if_pos hshort]
  · intro ds hall
    rw [read_msg_cons, if_pos rfl]
    exact readSizeLoop_all_cont ds 0 hall
  · intro s hns hlen
    rw [read_msg_cons, if_neg (by decide), if_pos rfl,
      readDelimLoop_no_term s [] (List.not_mem_nil 255) hns]
    rw [if_neg (by rw [List.length_nil, Nat.zero_add]; exact Nat.not_le.mpr hlen)]
  · intro s hns hlen
    rw [read_msg_cons, if_neg (by decide), if_pos rfl,
      readDelimLoop_no_term s [] (List.not_mem_nil 255) hns]
    rw [if_pos (by rw [List.length_nil, Nat.zero_add]; exact hlen)]
  · intro m tail hns hlen
    rw [read_msg_cons, if_neg (by decide), if_pos rfl,
      readDelimLoop_found m tail [] (List.not_mem_nil 255) hns]
    rw [if_pos (by rw [List.length_nil, Nat.zero_add]; exact hlen)]

/-- C6 (witness): the seven error cases at concrete inputs: frame type 0x07;
a 0xFF frame declaring 10485761 bytes (one over the limit); a 0xFF frame
declaring one byte with empty input; a length encoding that never ends; a
0x00 frame with no terminator; a 0x00 frame of exactly the limit with no
terminator; and one with the terminator arriving only after the limit. -/
theorem c6_read_msg_errors_witness :
    read_msg (7 :: []) = .invalidFrame 7 ∧
    read_msg (255 :: ([133, 128, 128, 1] ++ [])) = .tooLarge ∧
    read_msg (255 :: ([1] ++ [])) = .truncated ∧
    read_msg (255 :: [129, 130]) = .truncated ∧
    read_msg (0 :: [65, 66]) = .truncated ∧
    read_msg (0 :: List.replicate MAX_WEBSOCKET_MESSAGE_SIZE 65) = .tooLarge ∧
    read_msg (0 :: (List.replicate MAX_WEBSOCKET_MESSAGE_SIZE 65 ++ 255 :: [66])) =
      .tooLarge := by
  have hmem : (255 : Nat) ∉ List.replicate MAX_WEBSOCKET_MESSAGE_SIZE 65 := by
    rw [List.mem_replicate]
    exact fun h => absurd h.2 (by decide)
  have hrep : MAX_WEBSOCKET_MESSAGE_SIZE ≤
      (List.replicate MAX_WEBSOCKET_MESSAGE_SIZE 65).length := by
    rw [List.length_replicate]
  refine ⟨c6_read_msg_errors.1 7 [] (by decide) (by decide),
    c6_read_msg_errors.2.1 [133, 128, 128, 1] [] (by decide) (by decide),
    c6_read_msg_errors.2.2.1 [1] [] (by decide) (by decide) (by decide) (by decide),
    c6_read_msg_errors.2.2.2.1 [129, 130] (by decide),
    c6_read_msg_errors.2.2.2.2.1 [65, 66] (by decide) (by decide),
    c6_read_msg_errors.2.2.2.2.2.1 (List.replicate MAX_WEBSOCKET_MESSAGE_SIZE 65)
      hmem hrep,
    c6_read_msg_errors.2.2.2.2.2.2 (List.replicate MAX_WEBSOCKET_MESSAGE_SIZE 65)
      [66] hmem hrep⟩

/-- C10 (confirmed): `read_msg` returns `None` in exactly two non-error
cases — end of stream before any frame byte, and a 0xFF frame whose decoded
length is 0; and, as the claim notes, a 0x00-delimited empty frame is the
one input yielding the empty string, so an empty length-prefixed message is
indistinguishable from connection close while a delimited one is not. -/
theorem c10_read_msg_nothing_iff :
    (∀ s : List Nat,
      (read_msg s = .nothing ↔
        s = [] ∨ ∃ ds rest, s = 255 :: (ds ++ rest) ∧ isLenEnc ds = true ∧
          lenVal ds = 0)) ∧
    read_msg [] = .nothing ∧
    read_msg [255, 0] = .nothing ∧
    read_msg [0, 255] = .msg [] := by
  refine ⟨?_, rfl, by decide, by decide⟩
  intro s
  cases s with
  | nil =>
    constructor
    · intro _; exact Or.inl rfl
    · intro _; rfl
  | cons b rest =>
    rw [read_msg_cons]
    by_cases h255 : b = 255
    · subst h255
      rw [if_pos rfl]
      rw [readSizeLoop_eq_nothing rest 0]
      constructor
      · rintro ⟨ds, r2, heq, henc, hfold⟩
        exact Or.inr ⟨ds, r2, by rw [heq], henc, hfold⟩
      · rintro (h | ⟨ds, r2, heq, henc, hfold⟩)
        · cases h
        · have : rest = ds ++ r2 := by
            have := congrArg List.tail heq
            simpa using this
          exact ⟨ds, r2, this, henc, hfold⟩
    · rw [if_neg h255]
      by_cases h0 : b = 0
      · subst h0
        rw [if_pos rfl]
        constructor
        · intro h; exact absurd h (readDelimLoop_ne_nothing rest [])
        · rintro (h | ⟨ds, r2, heq, -, -⟩)
          · cases h
          · exact absurd (congrArg (fun l => List.head? l) heq) (by simp)
      · rw [if_neg h0]
        constructor
        · intro h; cases h
        · rintro (h | ⟨ds, r2, heq, -, -⟩)
          · cases h
          · exact absurd (congrArg (fun l => List.head? l) heq) (by simpa using h255)

/-- C1 (code bug, evaluated at the failing input): a keep-alive request
whose application declares `Content-Length: 5` and returns a lazy iterator
yielding `"ab"` then `"cdefgh"`. The streaming loop (wsgi.py lines 932-941)
writes the overshooting chunk in full and then writes its truncated prefix
a second time, so 11 body bytes reach the socket — `"ab" + "cdefgh" +
"cde"` — although the application produced 8 and declared 5, and
`min(produced, declared) = 5`; the connection is not marked not-keep-alive
either (`do_keep_alive_ary[0]` is still true, so the worker loops for a
next request). This contradicts the claim and the module docstring
("it won't ever send more than Content-Length"). -/
theorem c1_over_production_bytes :
    (lazyPath true (some 5) [[97, 98], [99, 100, 101, 102, 103, 104]]).body =
      [97, 98, 99, 100, 101, 102, 103, 104, 99, 100, 101] ∧
    (lazyPath true (some 5) [[97, 98], [99, 100, 101, 102, 103, 104]]).body.length = 11 ∧
    ([[97, 98], [99, 100, 101, 102, 103, 104]] : List (List Nat)).flatten.length = 8 ∧
    min 8 5 = 5 ∧
    (lazyPath true (some 5) [[97, 98], [99, 100, 101, 102, 103, 104]]).reuse = true := by
  decide

/-- C2 (code bug, evaluated at the failing input): a keep-alive request
whose application declares `Content-Length: 10` and returns a lazy iterator
yielding only `"ab"`. The worker spawns a `ConsumerWorker` on the iterator
(wsgi.py line 945) without clearing `items` — unlike the HEAD path, which
does `items = None` at line 976 precisely to "prevent double
items.close()" — so the worker's own `finally` block closes the iterator
and the drain task closes it again: `close()` runs twice, not once. -/
theorem c2_double_close :
    (lazyPath true (some 10) [[97, 98]]).consumerSpawned = true ∧
    (lazyPath true (some 10) [[97, 98]]).closeCount = 2 ∧
    (2 : Nat) ≠ 1 := by decide

/-- C3 (counterexample): a keep-alive HTTP/1.1 request whose application
declares `Content-Length: 5` and returns a buffered 3-byte body. The claim
says the response length is determined (a Content-Length was declared), so
`Connection: Keep-Alive` should be emitted and the connection reused — and
that otherwise `Connection: close` is emitted and the socket closed. The
code instead discards the buffered headers, emits a 500 carrying
`Connection: close` via `RespondWithBad`, and then does `continue` with
`do_keep_alive_ary[0]` still true, reusing the connection it just told the
client it would close (wsgi.py lines 872-881). -/
theorem c3_counterexample :
    (bufferedPath true true (some 5) 3).headerKeep = false ∧
    (bufferedPath true true (some 5) 3).reuse = true ∧
    (bufferedPath true true (some 5) 3).resp500 = true ∧
    ¬(((bufferedPath true true (some 5) 3).headerKeep = true ∧
        (bufferedPath true true (some 5) 3).reuse = true) ↔
      (true = true ∧ (some 5 : Option Nat).isSome = true)) := by decide

/-- C3 (amended): at each framing decision point, `Connection: Keep-Alive`
is emitted and the connection reused iff the client requested keep-alive
and the response length is determined — a declared Content-Length that, for
a buffered body, matches the body; a server-computed Content-Length for a
buffered body; or a HEAD response — except that when a buffered body
mismatches the declared Content-Length, the worker emits a 500 carrying
`Connection: close` yet still reuses the connection whenever the client
requested keep-alive. -/
theorem c3_keep_alive_decision :
    (∀ req : Bool, ∀ n : Nat, bufferedPath req true (some n) n =
      { headerKeep := req, reuse := req, resp500 := false }) ∧
    (∀ req : Bool, ∀ bodyLen : Nat, bufferedPath req true none bodyLen =
      { headerKeep := req, reuse := req, resp500 := false }) ∧
    (∀ req : Bool, ∀ bodyLen : Nat, bufferedPath req false none bodyLen =
      { headerKeep := req, reuse := req, resp500 := false }) ∧
    (∀ req : Bool, ∀ n bodyLen : Nat, bodyLen ≠ n →
      bufferedPath req true (some n) bodyLen =
        { headerKeep := false, reuse := req, resp500 := true }) ∧
    (∀ req : Bool, ∀ declared : Option Nat, ∀ chunks : List (List Nat),
      (lazyPath req declared chunks).headerKeep = (req && declared.isSome)) ∧
    (∀ req : Bool, ∀ declared : Option Nat,
      writeNotHeadKeep req declared = (req && declared.isSome)) ∧
    (∀ req : Bool, writeHeadKeep req = req) := by
  refine ⟨?_, ?_, ?_, ?_, ?_, fun _ _ => rfl, fun _ => rfl⟩
  · intro req n
    unfold bufferedPath
    dsimp only
    rw [if_pos rfl, if_neg (by simp)]
  · intro req bodyLen; rfl
  · intro req bodyLen; rfl
  · intro req n bodyLen h
    unfold bufferedPath
    dsimp only
    rw [if_pos rfl, if_pos h]
  · intro req declared chunks
    cases declared with
    | none => rfl
    | some n =>
      unfold lazyPath
      dsimp only
      by_cases hn : n ≠ 0
      · rw [if_pos hn]
        rcases hfr : scanFirst chunks with ⟨first, rest⟩
        by_cases h1 : (n : Int) - first.length < 0
        · rw [if_pos h1]
        · rw [if_neg h1]
          rcases hw : streamLoop ((n : Int) - first.length) rest with ⟨w, remF⟩
          by_cases h2 : 0 < remF
          · rw [if_pos h2]
          · rw [if_neg h2]
      · rw [if_neg hn]
        rcases hw : streamLoop 0 chunks with ⟨w, remF⟩
        by_cases h2 : 0 < remF
        · rw [if_pos h2]
        · rw [if_neg h2]

/-- C3 (witness): the amended mismatch branch at the concrete input of the
counterexample — declared length 5, buffered body of 3 bytes, keep-alive
requested. -/
theorem c3_keep_alive_decision_witness :
    bufferedPath true true (some 5) 3 =
      { headerKeep := false, reuse := true, resp500 := true } :=
  c3_keep_alive_decision.2.2.2.1 true 5 3 (by decide)

/-- C7 (confirmed): the Content-Length gate responds 400 and drops the
connection exactly when the header value does not parse as an integer, when
a POST or PUT request carries no Content-Length, or when a nonzero
Content-Length arrives on any other method; and in exactly those cases the
application is never invoked. -/
theorem c7_content_length_gate (method : String) (cl : ClHeader) (hasWsKeys : Bool) :
    ((∃ r, processContentLength method cl hasWsKeys = .bad400 r) ↔
      (cl = .malformed ∨
        (cl = .absent ∧ (method = "POST" ∨ method = "PUT")) ∨
        (∃ n : Int, cl = .value n ∧ n ≠ 0 ∧ ¬(method = "POST" ∨ method = "PUT")))) ∧
    (appInvokedAfterClGate method cl hasWsKeys = false ↔
      ∃ r, processContentLength method cl hasWsKeys = .bad400 r) := by
  constructor
  · cases cl with
    | malformed => simp [processContentLength]
    | absent =>
      by_cases hm : method = "POST" ∨ method = "PUT"
      · simp [processContentLength, hm]
      · by_cases hw : hasWsKeys <;> simp [processContentLength, hm, hw]
    | value n =>
      by_cases hm : method = "POST" ∨ method = "PUT"
      · simp [processContentLength, hm]
      · by_cases hz : n = 0 <;> simp [processContentLength, hm, hz]
  · unfold appInvokedAfterClGate
    cases hpc : processContentLength method cl hasWsKeys <;> simp

/-- C8 (counterexample): `CONNECTION` is in `COMMA_SEPARATED_REQHEAD`, yet a
request repeating the `Connection` header twice produces no `HTTP_CONNECTION`
environment entry at all — the header loop consumes `CONNECTION` before the
generic `HTTP_<NAME>` branch (wsgi.py line 573) — rather than the claimed
join `"keep-alive, close"`. -/
theorem c8_counterexample :
    "CONNECTION" ∈ COMMA_SEPARATED_REQHEAD ∧
    envGet (processReqLines true [("CONNECTION", "keep-alive"), ("CONNECTION", "close")]).env
      "HTTP_CONNECTION" = none ∧
    (none : Option String) ≠ some (joinComma ["keep-alive", "close"]) := by decide

/-- C8 (amended): the comma-folded set has 23 names, not twenty; and for
every repeated header whose canonical name is not one of the specially
handled ones (`CONNECTION`, `KEEP_ALIVE`, `CONTENT_LENGTH`, `CONTENT_TYPE`)
and does not start with `PROXY_`, `HTTP_<NAME>` holds all values joined
with `", "` in arrival order when the name is in the set, and the last
value otherwise. (The specially handled names — including the set members
`CONNECTION` and `PROXY_AUTHENTICATE` — never produce an `HTTP_<NAME>`
entry.) -/
theorem c8_comma_folding :
    COMMA_SEPARATED_REQHEAD.length = 23 ∧
    ∀ (keep0 : Bool) (n v : String) (vs : List String),
      n ≠ "CONNECTION" → n ≠ "KEEP_ALIVE" → n ≠ "CONTENT_LENGTH" → n ≠ "CONTENT_TYPE" →
      isProxyName n = false →
      envGet (processReqLines keep0 ((v :: vs).map (fun w => (n, w)))).env ("HTTP_" ++ n) =
        some (if n ∈ COMMA_SEPARATED_REQHEAD then joinComma (v :: vs)
          else (v :: vs).getLastD "") := by
  refine ⟨by decide, ?_⟩
  intro keep0 n v vs h1 h2 h3 h4 h5
  unfold processReqLines
  rw [List.map_cons, List.foldl_cons, hstep_generic _ n v h1 h2 h3 h4 h5]
  have hget0 : envGet ({ env := ([] : List (String × String)), keep := keep0 } : HState).env
      ("HTTP_" ++ n) = none := rfl
  rw [hget0]
  have hget1 : envGet (envSet ([] : List (String × String)) ("HTTP_" ++ n) v)
      ("HTTP_" ++ n) = some v :=
    envGet_envSet_self [] ("HTTP_" ++ n) v
  by_cases hin : n ∈ COMMA_SEPARATED_REQHEAD
  · rw [if_pos hin, foldl_hstep_comma n h1 h2 h3 h4 h5 hin vs _ v hget1]
    rfl
  · rw [if_neg hin, foldl_hstep_overwrite n h1 h2 h3 h4 h5 hin vs _ v hget1,
      foldl_keep_last vs v]
    cases vs <;> rfl

/-- C8 (witness): the amended statement at the repeated in-set header
`ACCEPT` with values `"a"` then `"b"`. -/
theorem c8_comma_folding_witness :
    envGet (processReqLines true ((["a", "b"] : List String).map
        (fun w => ("ACCEPT", w)))).env "HTTP_ACCEPT" =
      some (if "ACCEPT" ∈ COMMA_SEPARATED_REQHEAD then joinComma ["a", "b"]
        else (["a", "b"] : List String).getLastD "") :=
  c8_comma_folding.2 true "ACCEPT" "a" ["b"] (by decide) (by decide) (by decide)
    (by decide) (by decide)

/-- C9 (confirmed): `SslUpgrader` constructed with `use_http=True`. A peeked
first byte that is neither 0x16 nor 0x80 returns the socket unchanged with
the environment untouched (so `wsgi.url_scheme` and `HTTPS` keep whatever
they held, `"http"`/`"off"` as populated); a first byte of 0x16 or 0x80
with a successful handshake returns the wrapped socket and sets
`wsgi.url_scheme` to `"https"` and `HTTPS` to `"on"`; a failed handshake
returns `None` with the environment untouched, and the worker then returns
before `sockfile` exists, writing nothing. -/
theorem c9_ssl_upgrader (env : List (String × String)) (hs : Bool) (b : List Nat) :
    (b ≠ [128] → b ≠ [22] →
      sslUpgraderCall true (.bytes b) hs env = (some SockState.plain, env)) ∧
    ((b = [128] ∨ b = [22]) → hs = true →
      sslUpgraderCall true (.bytes b) hs env =
        (some .ssl, envSet (envSet env "wsgi.url_scheme" "https") "HTTPS" "on") ∧
      envGet (envSet (envSet env "wsgi.url_scheme" "https") "HTTPS" "on")
        "wsgi.url_scheme" = some "https" ∧
      envGet (envSet (envSet env "wsgi.url_scheme" "https") "HTTPS" "on")
        "HTTPS" = some "on") ∧
    ((b = [128] ∨ b = [22]) → hs = false →
      sslUpgraderCall true (.bytes b) hs env = (none, env) ∧
      workerProceedsAfterUpgrade true (.bytes b) hs env = false) := by
  refine ⟨?_, ?_, ?_⟩
  · intro h128 h22
    unfold sslUpgraderCall
    rw [if_pos rfl]
    dsimp only
    rw [if_neg (by simp [h128, h22])]
  · intro hb hhs
    subst hhs
    refine ⟨?_, ?_, envGet_envSet_self _ "HTTPS" "on"⟩
    · unfold sslUpgraderCall sslWrapStep
      rw [if_pos rfl]
      dsimp only
      rw [if_pos hb, if_pos rfl]
    · rw [envGet_envSet_of_ne _ "HTTPS" "wsgi.url_scheme" "on" (by decide)]
      exact envGet_envSet_self env "wsgi.url_scheme" "https"
  · intro hb hhs
    subst hhs
    constructor
    · unfold sslUpgraderCall sslWrapStep
      rw [if_pos rfl]
      dsimp only
      rw [if_pos hb, if_neg (by simp)]
    · unfold workerProceedsAfterUpgrade sslUpgraderCall sslWrapStep
      rw [if_pos rfl]
      dsimp only
      rw [if_pos hb, if_neg (by simp)]
      rfl

/-- C9 (witness): the three branches at concrete inputs — peeked byte 0x47
(plain HTTP `G`), peeked byte 0x16 with a successful handshake over an
environment holding the populated defaults, and peeked byte 0x16 with a
failed handshake. -/
theorem c9_ssl_upgrader_witness :
    sslUpgraderCall true (.bytes [71]) true
      [("wsgi.url_scheme", "http"), ("HTTPS", "off")] =
      (some SockState.plain, [("wsgi.url_scheme", "http"), ("HTTPS", "off")]) ∧
    sslUpgraderCall true (.bytes [22]) true
      [("wsgi.url_scheme", "http"), ("HTTPS", "off")] =
      (some .ssl, envSet (envSet [("wsgi.url_scheme", "http"), ("HTTPS", "off")]
        "wsgi.url_scheme" "https") "HTTPS" "on") ∧
    sslUpgraderCall true (.bytes [22]) false
      [("wsgi.url_scheme", "http"), ("HTTPS", "off")] =
      (none, [("wsgi.url_scheme", "http"), ("HTTPS", "off")]) ∧
    workerProceedsAfterUpgrade true (.bytes [22]) false
      [("wsgi.url_scheme", "http"), ("HTTPS", "off")] = false := by
  refine ⟨(c9_ssl_upgrader _ true [71]).1 (by decide) (by decide),
    ((c9_ssl_upgrader _ true [22]).2.1 (Or.inr rfl) rfl).1,
    ((c9_ssl_upgrader _ false [22]).2.2 (Or.inr rfl) rfl).1,
    ((c9_ssl_upgrader _ false [22]).2.2 (Or.inr rfl) rfl).2⟩
